import Mathlib

/-!
Verification development for the os-migrate vmware-migration-kit collection.

The definitions below are a shallow embedding of the Python modules
`plugins/modules/best_match_flavor.py`, `plugins/module_utils/v2v_wrapper.py`,
`plugins/modules/create_network_port.py` and the duplicated `VirtV2V` class in
`vmware_migration_kit/tests/conftest.py`.  Python numbers are modelled by `Int`
(and `ℚ` where true division occurs), fallible paths by `Except`/`Option`, and
the destination-cloud API by explicit state passing on a `CloudState` record.
-/

namespace VMK

/-! ## best_match_flavor.py -/

/-- An OpenStack flavor as returned by `conn.compute.flavors()`:
`vcpus` is a count, `ram` is in MB, `disk` is in GB. -/
structure Flavor where
  id : String
  vcpus : Int
  ram : Int
  disk : Int
  deriving Repr, DecidableEq

/-- The fields of the guest-info JSON file that `flavor_distance` reads:
`guest_info['instance']['hw_processor_count']` and
`guest_info['instance']['hw_memtotal_mb']`. -/
structure GuestInfo where
  hw_processor_count : Int
  hw_memtotal_mb : Int
  deriving Repr, DecidableEq

/-- One entry of `disk_info['guest_disk_info']`: the capacity is recorded in KB. -/
structure GuestDisk where
  capacity_in_kb : Int
  deriving Repr, DecidableEq

/-- `get_total_disk_capacity`: sums the per-disk capacities (KB) and divides by
1024 (Python true division, modelled exactly over `ℚ`), yielding MB. -/
def get_total_disk_capacity (disk_info : List GuestDisk) : ℚ :=
  ((disk_info.map GuestDisk.capacity_in_kb).sum : ℚ) / 1024

/-- Python's built-in `abs` on a rational value. -/
def pyAbs (x : ℚ) : ℚ := if x < 0 then -x else x

/-- `flavor_distance` as written in the source: the disk term compares
`flavor.disk` (GB) directly with `disk_capacity_mb` (MB), with no unit
conversion. -/
def flavor_distance (flavor : Flavor) (guest_info : GuestInfo) (disk_capacity_mb : ℚ) : ℚ :=
  pyAbs ((flavor.vcpus : ℚ) - (guest_info.hw_processor_count : ℚ))
    + pyAbs ((flavor.ram : ℚ) - (guest_info.hw_memtotal_mb : ℚ))
    + pyAbs ((flavor.disk : ℚ) - disk_capacity_mb)

/-- Modelled from the spec: the distance formula of the specification,
`|vcpus − required_vcpus| + |ram_mb − required_ram| + |disk_gb·1024 − total_disk_mb|`,
which converts the candidate disk size from GB to MB before comparing.
Stated only to compare with `flavor_distance` from the source. -/
def spec_flavor_distance (flavor : Flavor) (guest_info : GuestInfo) (disk_capacity_mb : ℚ) : ℚ :=
  pyAbs ((flavor.vcpus : ℚ) - (guest_info.hw_processor_count : ℚ))
    + pyAbs ((flavor.ram : ℚ) - (guest_info.hw_memtotal_mb : ℚ))
    + pyAbs ((flavor.disk : ℚ) * 1024 - disk_capacity_mb)

/-- Error kinds occurring in this development.  `valueError` and `nameError`
are the Python exceptions the embedded modules can actually raise; the spec
taxonomy names (`configError`, `noCandidatesError`, ...) are included so that
spec-level claims about error kinds can be stated and compared. -/
inductive ErrKind where
  | valueError
  | nameError
  | configError
  | noCandidatesError
  | conversionFailedError
  | provisioningError
  deriving Repr, DecidableEq

/-- Python `min(flavors, key=k)`: raises `ValueError` on an empty sequence,
otherwise keeps the first element whose key is strictly smaller than the
current best (so the first element attaining the minimum wins ties). -/
def pyMinBy (k : Flavor → ℚ) : List Flavor → Except ErrKind Flavor
  | [] => .error .valueError
  | x :: xs => .ok (xs.foldl (fun acc y => if k y < k acc then y else acc) x)

/-- The flavor selection performed by `run_module`:
`min(flavors, key=lambda flavor: flavor_distance(flavor, guest_info, disk_capacity_mb))`. -/
def bestFlavor (guest_info : GuestInfo) (disk_capacity_mb : ℚ) (flavors : List Flavor) :
    Except ErrKind Flavor :=
  pyMinBy (fun f => flavor_distance f guest_info disk_capacity_mb) flavors

/-- `run_module` end to end (pure part): computes the total disk capacity from
the disk-info file and returns the id of the best-matching flavor. -/
def run_module_flavor_uuid (guest_info : GuestInfo) (disk_info : List GuestDisk)
    (flavors : List Flavor) : Except ErrKind String :=
  (bestFlavor guest_info (get_total_disk_capacity disk_info) flavors).map Flavor.id

/-- The guest of the spec example: 2 vCPUs, 4096 MB RAM. -/
def exGuest : GuestInfo := { hw_processor_count := 2, hw_memtotal_mb := 4096 }

/-- The disk of the spec example: one 20 GB disk, recorded in KB. -/
def exDisks : List GuestDisk := [{ capacity_in_kb := 20971520 }]

/-- Candidate a of the spec example. -/
def exFlavorA : Flavor := { id := "a", vcpus := 1, ram := 2048, disk := 10 }

/-- Candidate b of the spec example. -/
def exFlavorB : Flavor := { id := "b", vcpus := 2, ram := 4096, disk := 20 }

/-- Candidate c of the spec example. -/
def exFlavorC : Flavor := { id := "c", vcpus := 4, ram := 8192, disk := 40 }

/-- A flavor whose distance to `exGuest` under the source formula is 0
(disk field holds the MB value the source compares against). -/
def tieFlavorB : Flavor := { id := "b", vcpus := 2, ram := 4096, disk := 20480 }

/-- Same stats as `tieFlavorB` but with the lexicographically smaller id. -/
def tieFlavorA : Flavor := { id := "a", vcpus := 2, ram := 4096, disk := 20480 }

/-! ## plugins/module_utils/v2v_wrapper.py -/

/-- The destination-cloud configuration dictionary passed to `VirtV2V`:
`auth` is the ordered key/value content of `cloud["auth"]` (Python dicts
preserve insertion order), `region_name` is `cloud.get("region_name")`
with `some ""` modelling an empty (falsy) value. -/
structure CloudConfig where
  auth : List (String × String)
  region_name : Option String
  deriving Repr, DecidableEq

/-- The parameter dictionary of `VirtV2V.__init__`. -/
structure V2VParams where
  vcenter_username : String
  vcenter_hostname : String
  vcenter_datacenter : String
  vcenter_cluster : String
  esxi_hostname : String
  vddk_libdir : String
  vddk_thumbprint : String
  conversion_host_id : String
  vm_name : String
  cloud : CloudConfig
  deriving Repr, DecidableEq

/-- The `mapping` dictionary of `_convert_cloud_to_virtv2v_options`. -/
def authKeyMapping : String → Option String
  | "auth_url" => some "auth-url"
  | "username" => some "username"
  | "password" => some "password"
  | "project_name" => some "project-name"
  | "project_id" => some "project-id"
  | "user_domain_name" => some "user-domain-name"
  | _ => none

/-- `VirtV2V._convert_cloud_to_virtv2v_options`: emits a `-oo key=value` pair
for every mapped auth key, then a region option when `region_name` is truthy. -/
def convert_cloud_to_virtv2v_options (cloud : CloudConfig) : List String :=
  (cloud.auth.foldr
    (fun kv acc =>
      match authKeyMapping kv.1 with
      | some m => "-oo" :: (m ++ "=" ++ kv.2) :: acc
      | none => acc) [])
  ++ (match cloud.region_name with
      | some r => if r = "" then [] else ["-oo", "region-name=" ++ r]
      | none => [])

/-- Python `str.replace` specialised to a single-character pattern (the source
calls it only as `.replace("@", "%40")`): every occurrence of the character is
replaced by the replacement string. -/
def pyReplaceChar (s : String) (c : Char) (rep : String) : String :=
  ⟨s.data.foldr (fun a acc => if a = c then rep.data ++ acc else a :: acc) []⟩

/-- `VirtV2V.build_command` from `plugins/module_utils/v2v_wrapper.py`:
note the `.replace("@", "%40")` applied to the vCenter username before it is
embedded in the `vpx://` connection URI. -/
def VirtV2V.build_command (p : V2VParams) : List String :=
  ["virt-v2v", "-ip", "/tmp/passwd", "-ic",
    "vpx://" ++ (pyReplaceChar p.vcenter_username '@' "%40") ++ "@" ++ p.vcenter_hostname
      ++ "/" ++ p.vcenter_datacenter ++ "/host/" ++ p.vcenter_cluster ++ "/"
      ++ p.esxi_hostname ++ "?no_verify=1",
    "-it", "vddk",
    "-io", "vddk-libdir=" ++ p.vddk_libdir,
    "-io", "vddk-thumbprint=" ++ p.vddk_thumbprint,
    "-o", "openstack",
    "-oo", "server-id=" ++ p.conversion_host_id]
  ++ convert_cloud_to_virtv2v_options p.cloud
  ++ [p.vm_name]

/-- The parameter dictionary used by the duplicated `VirtV2V` class in
`vmware_migration_kit/tests/conftest.py` (no datacenter/cluster/cloud keys). -/
structure ConftestParams where
  vcenter_username : String
  vcenter_hostname : String
  esxi_hostname : String
  vddk_libdir : String
  vddk_thumbprint : String
  conversion_host_id : String
  vm_name : String
  deriving Repr, DecidableEq

/-- `VirtV2V.build_command` as duplicated in
`vmware_migration_kit/tests/conftest.py`: the username is interpolated into the
`esx://` connection URI raw, with no percent-encoding of `@`. -/
def ConftestVirtV2V.build_command (p : ConftestParams) : List String :=
  ["virt-v2v", "-ip", "/tmp/passwd", "-ic",
    "esx://" ++ p.vcenter_username ++ "@" ++ p.vcenter_hostname ++ "/Datacenter/"
      ++ p.esxi_hostname ++ "?no_verify=1",
    "-it", "vddk",
    "-io", "vddk-libdir=" ++ p.vddk_libdir,
    "-io", "vddk-thumbprint=" ++ p.vddk_thumbprint,
    "-o", "openstack",
    "-oo", "server-id=" ++ p.conversion_host_id,
    p.vm_name]

/-- The arguments of the `subprocess.run` call in `VirtV2V.run_command`,
exactly as written in the source: `check=True`, `capture_output=True`,
`text=True`, and no `timeout` argument (`none`). -/
structure SubprocessCall where
  cmd : List String
  check : Bool
  capture_output : Bool
  text : Bool
  timeout : Option ℚ
  deriving Repr, DecidableEq

/-- The one `subprocess.run` invocation issued by `VirtV2V.run_command`. -/
def VirtV2V.subprocessCall (cmd : List String) : SubprocessCall :=
  { cmd := cmd, check := true, capture_output := true, text := true, timeout := none }

/-- Behaviour of the external process: it either terminates with an exit code
and output streams, or it never terminates. -/
inductive ProcBehavior where
  | terminates (rc : Int) (stdout stderr : String)
  | hangs
  deriving Repr, DecidableEq

/-- Possible outcomes of `subprocess.run` with the given arguments. -/
inductive SubprocessOutcome where
  | completed (rc : Int) (stdout stderr : String)
  | calledProcessError (rc : Int) (stdout stderr : String)
  | timeoutExpired
  | blocksForever
  deriving Repr, DecidableEq

/-- Semantics of `subprocess.run`: with `check=True` a non-zero exit raises
`CalledProcessError`; a process that never terminates makes the call block
forever unless a `timeout` was supplied, in which case `TimeoutExpired` is
raised once the bound elapses. -/
def subprocessRun (c : SubprocessCall) (b : ProcBehavior) : SubprocessOutcome :=
  match b with
  | .terminates rc out err =>
      if c.check = true ∧ rc ≠ 0 then .calledProcessError rc out err
      else .completed rc out err
  | .hangs =>
      match c.timeout with
      | some _ => .timeoutExpired
      | none => .blocksForever

/-- The dictionary `VirtV2V.run_command` returns. -/
structure RunResult where
  changed : Bool
  msg : Option String
  stdout : String
  stderr : String
  deriving Repr, DecidableEq

/-- Observable outcome of a `VirtV2V.run_command` call: it returns a result
dictionary, lets an exception propagate, or never returns. -/
inductive RunOutcome where
  | returns (r : RunResult)
  | raisesTimeoutExpired
  | blocks
  deriving Repr, DecidableEq

/-- Rendering of `f"Command failed: {e}"` for a `CalledProcessError`
(list formatting follows Lean's `toString`; no claim depends on it). -/
def calledProcessErrorMsg (cmd : List String) (rc : Int) : String :=
  "Command failed: Command " ++ toString cmd ++ " returned non-zero exit status "
    ++ toString rc ++ "."

/-- `VirtV2V.run_command`: runs `subprocess.run(cmd, check=True,
capture_output=True, text=True)` and catches only `CalledProcessError`,
turning it into a `changed=False` dictionary carrying the stdout/stderr of
the failed process. -/
def VirtV2V.run_command (cmd : List String) (b : ProcBehavior) : RunOutcome :=
  match subprocessRun (VirtV2V.subprocessCall cmd) b with
  | .completed _ out err =>
      .returns { changed := true, msg := none, stdout := out, stderr := err }
  | .calledProcessError rc out err =>
      .returns { changed := false, msg := some (calledProcessErrorMsg cmd rc),
                 stdout := out, stderr := err }
  | .timeoutExpired => .raisesTimeoutExpired
  | .blocksForever => .blocks

/-! ## plugins/modules/create_network_port.py -/

/-- A Neutron network, as found by `conn.get_network`. -/
structure Network where
  name : String
  id : String
  deriving Repr, DecidableEq

/-- A Neutron port, as created by `conn.network.create_port`.  Port ids are
modelled as the naturals handed out by the cloud's fresh-id counter. -/
structure Port where
  name : String
  network_id : String
  mac_address : String
  security_groups : List String
  id : Nat
  deriving Repr, DecidableEq

/-- The destination cloud visible to the module: the known networks, the
existing ports and a fresh-id counter for newly created ports. -/
structure CloudState where
  networks : List Network
  ports : List Port
  nextPortId : Nat
  deriving Repr, DecidableEq

/-- `conn.get_network(name_or_id)`: finds a network by name or id; a `None`
argument (an unmapped NIC with no fallback network) finds nothing. -/
def CloudState.get_network (s : CloudState) (name_or_id : Option String) : Option Network :=
  match name_or_id with
  | none => none
  | some q => s.networks.find? (fun n => n.name = q || n.id = q)

/-- `conn.network.create_port`: unconditionally creates a new port with a
fresh id — the Neutron API does not deduplicate ports by name. -/
def CloudState.create_port (s : CloudState) (name network_id mac : String)
    (security_groups : List String) : CloudState × Port :=
  let p : Port := { name := name, network_id := network_id, mac_address := mac,
                    security_groups := security_groups, id := s.nextPortId }
  ({ s with ports := s.ports ++ [p], nextPortId := s.nextPortId + 1 }, p)

/-- One entry of the NICs file: after the unmapped-policy override the `vlan`
value may be Python `None`, hence the `Option`. -/
structure Nic where
  mac : String
  vlan : Option String
  deriving Repr, DecidableEq

/-- The module parameters of `create_network_port`. -/
structure PortModuleParams where
  vm_name : String
  used_mapped_networks : Bool
  security_groups : List String
  network_name : Option String
  deriving Repr, DecidableEq

/-- The override loop `if not used_mapped_networks: for nic in vm_nics:
nic['vlan'] = network_name`. -/
def applyMappedPolicy (used_mapped_networks : Bool) (network_name : Option String)
    (vm_nics : List Nic) : List Nic :=
  if used_mapped_networks then vm_nics
  else vm_nics.map (fun n => { n with vlan := network_name })

/-- Python `str` of an optional string, as an f-string renders it. -/
def pyStrOptional : Option String → String
  | some s => s
  | none => "None"

/-- `port_name = f"{vm_name}-NIC-{nic_index}-VLAN-{item['vlan']}"`. -/
def portName (vm_name : String) (nic_index : Nat) (vlan : Option String) : String :=
  vm_name ++ "-NIC-" ++ toString nic_index ++ "-VLAN-" ++ pyStrOptional vlan

/-- The `try`-block loop of `create_network_port.main`, with the source's
control flow kept intact: the lookup result is only used to rebind the local
`network_id` when it is truthy, so a failed lookup silently keeps the previous
binding, and a failed lookup before any successful one leaves `network_id`
unbound, raising `NameError` at the `create_port` call.  Returns the final
cloud state (ports created before an abort persist) and either the created
ports or the exception that aborted the loop. -/
def portLoop (vm_name : String) (security_groups : List String) :
    List Nic → Nat → Option String → CloudState → List Port →
    CloudState × Except ErrKind (List Port)
  | [], _, _, s, acc => (s, .ok acc)
  | nic :: rest, nic_index, network_id, s, acc =>
      let network_id' :=
        match s.get_network nic.vlan with
        | some nw => some nw.id
        | none => network_id
      match network_id' with
      | none => (s, .error .nameError)
      | some nid =>
          let sp := s.create_port (portName vm_name nic_index nic.vlan) nid nic.mac
            security_groups
          portLoop vm_name security_groups rest (nic_index + 1) (some nid) sp.1
            (acc ++ [sp.2])

/-- The pure core of `create_network_port.main` after the NICs file is loaded:
applies the unmapped-network override, then runs the port-creation loop. -/
def create_network_port_run (p : PortModuleParams) (vm_nics : List Nic)
    (conn : CloudState) : CloudState × Except ErrKind (List Port) :=
  portLoop p.vm_name p.security_groups
    (applyMappedPolicy p.used_mapped_networks p.network_name vm_nics) 0 none conn []

/-- Rendering of `str(e)` for the exceptions the loop can raise. -/
def pyErrStr : ErrKind → String
  | .nameError => "cannot access local variable network_id where it is not associated with a value"
  | .valueError => "min() arg is an empty sequence"
  | _ => ""

/-- How `main` exits: `module.exit_json(changed=..., ports=...)` or
`module.fail_json(msg=...)`. -/
inductive ModuleExit where
  | exitJson (changed : Bool) (ports : List Nat)
  | failJson (msg : String)
  deriving Repr, DecidableEq

/-- `create_network_port.main`: on success exits with the created port ids and
`changed=True` iff at least one port was created; an exception inside the
`try`-block is caught and reported via `fail_json` (the double space in the
message is the source's).  Also returns the cloud state after the run. -/
def create_network_port_main (p : PortModuleParams) (vm_nics : List Nic)
    (conn : CloudState) : ModuleExit × CloudState :=
  match create_network_port_run p vm_nics conn with
  | (s, .ok created) => (.exitJson (!created.isEmpty) (created.map Port.id), s)
  | (s, .error e) => (.failJson ("Failed to create  ports: " ++ pyErrStr e), s)

/-! ## Concrete fixtures -/

/-- Parameters of a vCenter whose username contains `@`. -/
def exV2VParams : V2VParams :=
  { vcenter_username := "administrator@vsphere.local"
    vcenter_hostname := "vc.example.com"
    vcenter_datacenter := "DC1"
    vcenter_cluster := "CL1"
    esxi_hostname := "esxi1.example.com"
    vddk_libdir := "/usr/lib/vmware-vix-disklib"
    vddk_thumbprint := "XX:XX:XX:XX"
    conversion_host_id := "chid"
    vm_name := "vm1"
    cloud := { auth := [], region_name := none } }

/-- The same credentials fed to the duplicated conftest `VirtV2V`. -/
def exConfParams : ConftestParams :=
  { vcenter_username := "administrator@vsphere.local"
    vcenter_hostname := "vc.example.com"
    esxi_hostname := "esxi1.example.com"
    vddk_libdir := "/usr/lib/vmware-vix-disklib"
    vddk_thumbprint := "XX:XX:XX:XX"
    conversion_host_id := "chid"
    vm_name := "vm1" }

/-- A destination network named `VLAN10`. -/
def exNet1 : Network := { name := "VLAN10", id := "net-1" }

/-- A destination network named `private`. -/
def exNet2 : Network := { name := "private", id := "net-2" }

/-- A destination cloud with two networks, no ports yet. -/
def exCloud : CloudState :=
  { networks := [exNet1, exNet2]
    ports := []
    nextPortId := 0 }

/-- A NIC whose vlan resolves on `exCloud`. -/
def exNic : Nic := { mac := "52:54:00:00:00:01", vlan := some "VLAN10" }

/-- A NIC whose vlan resolves to no network on `exCloud`. -/
def exBadNic : Nic := { mac := "52:54:00:00:00:02", vlan := some "VLAN99" }

/-- Module parameters with mapped networks. -/
def exPortParams : PortModuleParams :=
  { vm_name := "cirros", used_mapped_networks := true
    security_groups := ["default"], network_name := none }

/-- Module parameters with `used_mapped_networks=false` and no fallback network. -/
def exPortParamsNoFallback : PortModuleParams :=
  { vm_name := "cirros", used_mapped_networks := false
    security_groups := ["default"], network_name := none }

/-- Module parameters with `used_mapped_networks=false` and fallback network
`private`. -/
def exPortParamsFallback : PortModuleParams :=
  { vm_name := "cirros", used_mapped_networks := false
    security_groups := ["default"], network_name := some "private" }

/-- The port that the fallback run of `create_network_port` on `exCloud`
creates for `exNic`. -/
def wPort : Port :=
  { name := portName "cirros" 0 (some "private"), network_id := "net-2",
    mac_address := "52:54:00:00:00:01", security_groups := ["default"], id := 0 }

/-! ## Helper lemmas -/

/-- `pyAbs` agrees with the mathematical absolute value. -/
theorem pyAbs_eq_abs (x : ℚ) : pyAbs x = |x| := by
  unfold pyAbs
  rcases lt_or_ge x 0 with h | h
  · rw [if_pos h, abs_of_neg h]
  · rw [if_neg (not_lt.mpr h), abs_of_nonneg h]

/-- The Python `min` fold leaves the accumulator unchanged when no later
element has a strictly smaller key. -/
theorem foldl_min_fixed (k : Flavor → ℚ) (acc : Flavor) (xs : List Flavor)
    (h : ∀ y ∈ xs, ¬ k y < k acc) :
    xs.foldl (fun a y => if k y < k a then y else a) acc = acc := by
  induction xs with
  | nil => rfl
  | cons b bs ih =>
      have hb : ¬ k b < k acc := h b (List.mem_cons_self b bs)
      simp only [List.foldl_cons, if_neg hb]
      exact ih (fun y hy => h y (List.mem_cons_of_mem b hy))

/-- The Python `min` fold reaches the first element that strictly improves on
everything before it and at least ties with everything after it. -/
theorem foldl_min_first (k : Flavor → ℚ) (x : Flavor) (l2 : List Flavor)
    (h2 : ∀ y ∈ l2, k x ≤ k y) :
    ∀ (l1 : List Flavor) (acc : Flavor), k x < k acc → (∀ y ∈ l1, k x < k y) →
      (l1 ++ x :: l2).foldl (fun a y => if k y < k a then y else a) acc = x := by
  intro l1
  induction l1 with
  | nil =>
      intro acc hacc _
      simp only [List.nil_append, List.foldl_cons, if_pos hacc]
      exact foldl_min_fixed k x l2 (fun y hy => not_lt.mpr (h2 y hy))
  | cons b bs ih =>
      intro acc hacc h1
      simp only [List.cons_append, List.foldl_cons]
      by_cases hb : k b < k acc
      · rw [if_pos hb]
        exact ih b (h1 b (List.mem_cons_self b bs)) (fun y hy => h1 y (List.mem_cons_of_mem b hy))
      · rw [if_neg hb]
        exact ih acc hacc (fun y hy => h1 y (List.mem_cons_of_mem b hy))

/-! ## Claims about the flavor matcher -/

/-- C1: the source's `flavor_distance` does NOT compute
`|vcpus − required_vcpus| + |ram_mb − required_ram| + |disk_gb·1024 − total_disk_mb|`:
on the spec example (guest 2 vCPU / 4096 MB / one 20 GB disk, candidate b with
2 vCPU / 4096 MB RAM / 20 GB disk) the code's distance is 20460 — the disk
term compares GB against MB with no `·1024` conversion — while the claimed
formula gives 0.  Selection still happens to return flavor `b` here. -/
theorem C1_flavor_distance_unit_mismatch :
    flavor_distance exFlavorB exGuest (get_total_disk_capacity exDisks) = 20460
    ∧ spec_flavor_distance exFlavorB exGuest (get_total_disk_capacity exDisks) = 0
    ∧ run_module_flavor_uuid exGuest exDisks [exFlavorA, exFlavorB, exFlavorC]
        = .ok "b" := by
  refine ⟨?_, ?_, ?_⟩
  · norm_num [flavor_distance, pyAbs, exFlavorB, exGuest, get_total_disk_capacity, exDisks]
  · norm_num [spec_flavor_distance, pyAbs, exFlavorB, exGuest, get_total_disk_capacity,
      exDisks]
  · norm_num [run_module_flavor_uuid, bestFlavor, pyMinBy, flavor_distance, pyAbs,
      get_total_disk_capacity, exDisks, exGuest, exFlavorA, exFlavorB, exFlavorC,
      Except.map]

/-- C3 counterexample: two candidates tie at the minimal distance; the ids are
`"b"` (supplied first) and `"a"` (lexicographically smaller).  Selection
returns the one with id `"b"`, not the one with the lowest id. -/
theorem C3_counterexample :
    (bestFlavor exGuest 20480 [tieFlavorB, tieFlavorA]).map Flavor.id = .ok "b"
    ∧ flavor_distance tieFlavorB exGuest 20480 = flavor_distance tieFlavorA exGuest 20480
    ∧ List.Lex (· < ·) tieFlavorA.id.toList tieFlavorB.id.toList
    ∧ tieFlavorA.id ≠ tieFlavorB.id := by
  refine ⟨?_, ?_, ?_, ?_⟩
  · norm_num [bestFlavor, pyMinBy, flavor_distance, pyAbs, tieFlavorA, tieFlavorB,
      exGuest, Except.map]
  · norm_num [flavor_distance, pyAbs, tieFlavorA, tieFlavorB, exGuest]
  · decide
  · decide

/-- C3 amended: on a tie, selection is by position, not id — `min` returns the
first candidate in the supplied order attaining the minimal distance: whenever
the candidate list splits as `l1 ++ x :: l2` with `x` strictly better than
everything in `l1` and at least as good as everything in `l2`, the result
is `x`. -/
theorem C3_first_supplied_minimum_selected (g : GuestInfo) (d : ℚ)
    (l1 l2 : List Flavor) (x : Flavor)
    (h1 : ∀ y ∈ l1, flavor_distance x g d < flavor_distance y g d)
    (h2 : ∀ y ∈ l2, flavor_distance x g d ≤ flavor_distance y g d) :
    bestFlavor g d (l1 ++ x :: l2) = .ok x := by
  cases l1 with
  | nil =>
      simp only [List.nil_append, bestFlavor, pyMinBy]
      rw [foldl_min_fixed _ x l2 (fun y hy => not_lt.mpr (h2 y hy))]
  | cons a as =>
      simp only [List.cons_append, bestFlavor, pyMinBy]
      rw [foldl_min_first _ x l2 h2 as a (h1 a (List.mem_cons_self a as))
        (fun y hy => h1 y (List.mem_cons_of_mem a hy))]

/-- Witness for the C3 amended theorem at a concrete tied list. -/
theorem C3_first_supplied_minimum_selected_witness :
    bestFlavor exGuest 20480 ([exFlavorA] ++ tieFlavorB :: [tieFlavorA]) = .ok tieFlavorB :=
  C3_first_supplied_minimum_selected exGuest 20480 [exFlavorA] [tieFlavorA] tieFlavorB
    (by intro y hy
        rw [List.mem_singleton] at hy
        subst hy
        norm_num [flavor_distance, pyAbs, tieFlavorB, exFlavorA, exGuest])
    (by intro y hy
        rw [List.mem_singleton] at hy
        subst hy
        norm_num [flavor_distance, pyAbs, tieFlavorB, tieFlavorA, exGuest])

/-- C4 counterexample: with an empty candidate sequence the module's selection
raises Python's `ValueError` (from `min()` over an empty sequence), not a
`NoCandidatesError` — no such error kind exists in the code. -/
theorem C4_counterexample :
    run_module_flavor_uuid exGuest exDisks [] = .error .valueError
    ∧ run_module_flavor_uuid exGuest exDisks [] ≠ .error .noCandidatesError := by
  refine ⟨rfl, ?_⟩
  intro h
  rw [show run_module_flavor_uuid exGuest exDisks [] = .error .valueError from rfl] at h
  simp at h

/-- C4 amended: for every guest descriptor and disk file, selection over an
empty candidate sequence fails with the uncaught `ValueError` that
`min(flavors, key=...)` raises on an empty sequence. -/
theorem C4_empty_candidates_value_error (g : GuestInfo) (d : List GuestDisk) :
    run_module_flavor_uuid g d [] = .error .valueError := rfl

/-! ## Claims about the conversion invoker -/

/-- C5 counterexample: the `subprocess.run` invocation of
`VirtV2V.run_command` passes no `timeout`, and on a process that never
terminates the call blocks forever — the conversion call is not bounded by a
hard timeout. -/
theorem C5_counterexample :
    (VirtV2V.subprocessCall ["virt-v2v"]).timeout = none
    ∧ VirtV2V.run_command ["virt-v2v"] .hangs = .blocks := ⟨rfl, rfl⟩

/-- C5 amended: for every command, `run_command` invokes `subprocess.run`
without any timeout argument, so a non-terminating external conversion process
makes the call block indefinitely. -/
theorem C5_no_timeout_blocks (cmd : List String) :
    (VirtV2V.subprocessCall cmd).timeout = none
    ∧ VirtV2V.run_command cmd .hangs = .blocks := ⟨rfl, rfl⟩

/-- C6: the `build_command` of `plugins/module_utils/v2v_wrapper.py`
percent-encodes `@` in the username (`administrator%40vsphere.local`), but the
duplicated `VirtV2V.build_command` call site in
`vmware_migration_kit/tests/conftest.py` embeds the raw username, leaving its
`@` unencoded in the connection URI — so the encoding does NOT happen at every
call site that builds the connection URI. -/
theorem C6_conftest_call_site_unencoded :
    (VirtV2V.build_command exV2VParams).get? 4
      = some "vpx://administrator%40vsphere.local@vc.example.com/DC1/host/CL1/esxi1.example.com?no_verify=1"
    ∧ (ConftestVirtV2V.build_command exConfParams).get? 4
      = some "esx://administrator@vsphere.local@vc.example.com/Datacenter/esxi1.example.com?no_verify=1"
    ∧ (ConftestVirtV2V.build_command exConfParams).get? 4
      ≠ some "esx://administrator%40vsphere.local@vc.example.com/Datacenter/esxi1.example.com?no_verify=1" :=
  ⟨rfl, rfl, by decide⟩

/-- C7: when the external process exits non-zero, `run_command` returns a
`changed=False` dictionary carrying the process's stdout and stderr (the
`CalledProcessError` is caught, no exception propagates); on exit code 0 it
returns `changed=True` with the captured stdout and stderr. -/
theorem C7_run_command_exit_handling (cmd : List String) (rc : Int) (out err : String)
    (hrc : rc ≠ 0) :
    VirtV2V.run_command cmd (.terminates rc out err)
      = .returns { changed := false, msg := some (calledProcessErrorMsg cmd rc),
                   stdout := out, stderr := err }
    ∧ VirtV2V.run_command cmd (.terminates 0 out err)
      = .returns { changed := true, msg := none, stdout := out, stderr := err } := by
  constructor
  · simp [VirtV2V.run_command, subprocessRun, VirtV2V.subprocessCall, hrc]
  · simp [VirtV2V.run_command, subprocessRun, VirtV2V.subprocessCall]

/-- Witness for C7 at exit codes 1 and 0. -/
theorem C7_run_command_exit_handling_witness :
    VirtV2V.run_command ["virt-v2v"] (.terminates 1 "o" "e")
      = .returns { changed := false, msg := some (calledProcessErrorMsg ["virt-v2v"] 1),
                   stdout := "o", stderr := "e" }
    ∧ VirtV2V.run_command ["virt-v2v"] (.terminates 0 "o" "e")
      = .returns { changed := true, msg := none, stdout := "o", stderr := "e" } :=
  C7_run_command_exit_handling ["virt-v2v"] 1 "o" "e" (by decide)

/-! ## Claims about create_network_port -/

/-- One iteration of the port loop over a single NIC whose network lookup
succeeds: a fresh port is created on that network. -/
theorem portLoop_single (vm : String) (sg : List String) (nic : Nic) (s : CloudState)
    (nid0 : Option String) (idx : Nat) (nw : Network) (acc : List Port)
    (hl : s.get_network nic.vlan = some nw) :
    portLoop vm sg [nic] idx nid0 s acc =
      ({ s with
          ports := s.ports ++ [⟨portName vm idx nic.vlan, nw.id, nic.mac, sg, s.nextPortId⟩],
          nextPortId := s.nextPortId + 1 },
       .ok (acc ++ [⟨portName vm idx nic.vlan, nw.id, nic.mac, sg, s.nextPortId⟩])) := by
  simp [portLoop, hl, CloudState.create_port]

/-- A full `main` run over a single mapped NIC whose network lookup succeeds. -/
theorem main_single (p : PortModuleParams) (nic : Nic) (conn : CloudState) (nw : Network)
    (hm : p.used_mapped_networks = true) (hl : conn.get_network nic.vlan = some nw) :
    create_network_port_main p [nic] conn =
      (.exitJson true [conn.nextPortId],
       { conn with
          ports := conn.ports ++ [⟨portName p.vm_name 0 nic.vlan, nw.id, nic.mac,
            p.security_groups, conn.nextPortId⟩],
          nextPortId := conn.nextPortId + 1 }) := by
  simp [create_network_port_main, create_network_port_run, applyMappedPolicy, hm,
    portLoop_single p.vm_name p.security_groups nic conn none 0 nw [] hl]

/-- `create_port` does not change the set of networks, so lookups are stable
across port creations. -/
theorem get_network_create_port (s : CloudState) (n nid m : String) (sg : List String)
    (q : Option String) :
    ((s.create_port n nid m sg).1).get_network q = s.get_network q := rfl

/-- When every NIC's network lookup fails and no lookup has succeeded yet, the
loop aborts at the first NIC with `NameError` (`network_id` is unbound),
leaving the cloud unchanged. -/
theorem portLoop_no_network (vm : String) (sg : List String) (nics : List Nic) (idx : Nat)
    (s : CloudState) (acc : List Port)
    (hv : ∀ n ∈ nics, s.get_network n.vlan = none) (hne : nics ≠ []) :
    portLoop vm sg nics idx none s acc = (s, .error .nameError) := by
  cases nics with
  | nil => exact absurd rfl hne
  | cons nic rest =>
      have h0 : s.get_network nic.vlan = none := hv nic (List.mem_cons_self nic rest)
      simp [portLoop, h0]

/-- Loop invariant behind C9: if every NIC's vlan is the fallback network and
the fallback resolves to `nw`, every port the loop adds is on `nw` and carries
the deterministic fallback port name. -/
theorem portLoop_fallback_aux (vm : String) (sg : List String) (fb : String) (nw : Network) :
    ∀ (nics : List Nic) (idx : Nat) (nid0 : Option String) (s : CloudState) (acc : List Port),
      (∀ n ∈ nics, n.vlan = some fb) →
      s.get_network (some fb) = some nw →
      ∀ created, (portLoop vm sg nics idx nid0 s acc).2 = .ok created →
        ∀ q ∈ created,
          q ∈ acc ∨ (q.network_id = nw.id ∧ ∃ j, q.name = portName vm j (some fb)) := by
  intro nics
  induction nics with
  | nil =>
      intro idx nid0 s acc _ _ created hok q hq
      simp [portLoop] at hok
      subst hok
      exact Or.inl hq
  | cons nic rest ih =>
      intro idx nid0 s acc hv hnw created hok q hq
      have hvn : nic.vlan = some fb := hv nic (List.mem_cons_self nic rest)
      rw [show portLoop vm sg (nic :: rest) idx nid0 s acc
          = portLoop vm sg rest (idx + 1) (some nw.id)
              (s.create_port (portName vm idx nic.vlan) nw.id nic.mac sg).1
              (acc ++ [(s.create_port (portName vm idx nic.vlan) nw.id nic.mac sg).2])
          from by rw [portLoop, hvn, hnw]] at hok
      have hnw2 : ((s.create_port (portName vm idx nic.vlan) nw.id nic.mac sg).1).get_network
          (some fb) = some nw := hnw
      have hrec := ih (idx + 1) (some nw.id) _ _
        (fun n hn2 => hv n (List.mem_cons_of_mem nic hn2)) hnw2 created hok q hq
      rcases hrec with hacc | hgood
      · rcases List.mem_append.mp hacc with h | h
        · exact Or.inl h
        · rw [List.mem_singleton] at h
          subst h
          refine Or.inr ⟨rfl, idx, ?_⟩
          rw [hvn]
          rfl
      · exact Or.inr hgood

/-- C2 counterexample: two identical invocations over the same NIC file do not
return the same port id — the first run exits `changed=true` with port id 0,
the second (on the cloud state the first produced) exits `changed=true` again
with a fresh port id 1: no lookup of the existing port by its deterministic
name ever happens. -/
theorem C2_counterexample :
    (create_network_port_main exPortParams [exNic] exCloud).1 = .exitJson true [0]
    ∧ (create_network_port_main exPortParams [exNic]
        (create_network_port_main exPortParams [exNic] exCloud).2).1 = .exitJson true [1]
    ∧ (0 : Nat) ≠ 1 := ⟨rfl, rfl, by decide⟩

/-- C2 amended: `create_network_port` builds the deterministic port name but
performs no lookup of an existing port before creating: for every cloud state
and NIC whose network resolves, a run creates a fresh port and reports
`changed=true`, and a second identical run creates a second, distinct port and
reports `changed=true` again. -/
theorem C2_always_creates_new_port (p : PortModuleParams) (nic : Nic) (conn : CloudState)
    (nw : Network) (hm : p.used_mapped_networks = true)
    (hl : conn.get_network nic.vlan = some nw) :
    (create_network_port_main p [nic] conn).1 = .exitJson true [conn.nextPortId]
    ∧ (create_network_port_main p [nic] (create_network_port_main p [nic] conn).2).1
        = .exitJson true [conn.nextPortId + 1]
    ∧ conn.nextPortId ≠ conn.nextPortId + 1 := by
  have hl2 : ({ conn with
      ports := conn.ports ++ [⟨portName p.vm_name 0 nic.vlan, nw.id, nic.mac,
        p.security_groups, conn.nextPortId⟩],
      nextPortId := conn.nextPortId + 1 } : CloudState).get_network nic.vlan = some nw := hl
  refine ⟨by rw [main_single p nic conn nw hm hl], ?_, by omega⟩
  rw [main_single p nic conn nw hm hl]
  rw [main_single p nic _ nw hm hl2]

/-- Witness for the C2 amended theorem on `exCloud`. -/
theorem C2_always_creates_new_port_witness :
    (create_network_port_main exPortParams [exNic] exCloud).1
        = .exitJson true [exCloud.nextPortId]
    ∧ (create_network_port_main exPortParams [exNic]
        (create_network_port_main exPortParams [exNic] exCloud).2).1
        = .exitJson true [exCloud.nextPortId + 1]
    ∧ exCloud.nextPortId ≠ exCloud.nextPortId + 1 :=
  C2_always_creates_new_port exPortParams exNic exCloud exNet1 rfl rfl

/-- C8 counterexample: with `mapped=false` and no fallback network, the run
over one NIC fails with `NameError` (converted into the generic
`Failed to create  ports` message), not with a `ConfigError`; no port is
provisioned. -/
theorem C8_counterexample :
    create_network_port_run exPortParamsNoFallback [exNic] exCloud
      = (exCloud, .error .nameError)
    ∧ (create_network_port_main exPortParamsNoFallback [exNic] exCloud).1
        = .failJson ("Failed to create  ports: " ++ pyErrStr .nameError)
    ∧ ErrKind.nameError ≠ ErrKind.configError
    ∧ (create_network_port_main exPortParamsNoFallback [exNic] exCloud).2.ports = [] :=
  ⟨rfl, rfl, by decide, rfl⟩

/-- C8 amended: when `mapped=false` and no fallback network is provided, every
NIC's vlan is overridden to `None`; for a non-empty NIC list the first lookup
finds nothing, `network_id` is never bound, and the module fails via the
generic exception handler (`NameError`, reported as `Failed to create  ports`)
— not with a `ConfigError` — before any port is provisioned. -/
theorem C8_unmapped_without_fallback (p : PortModuleParams) (vm_nics : List Nic)
    (conn : CloudState) (hm : p.used_mapped_networks = false) (hn : p.network_name = none)
    (hne : vm_nics ≠ []) :
    create_network_port_main p vm_nics conn
      = (.failJson ("Failed to create  ports: " ++ pyErrStr .nameError), conn) := by
  have hmap : applyMappedPolicy p.used_mapped_networks p.network_name vm_nics
      = vm_nics.map (fun n => { n with vlan := none }) := by
    simp [applyMappedPolicy, hm, hn]
  have hv : ∀ n ∈ vm_nics.map (fun n => { n with vlan := none }),
      conn.get_network n.vlan = none := by
    intro n hn2
    rcases List.mem_map.mp hn2 with ⟨x, _, rfl⟩
    rfl
  have hne2 : vm_nics.map (fun n => { n with vlan := (none : Option String) }) ≠ [] := by
    intro h
    exact hne (List.map_eq_nil_iff.mp h)
  simp [create_network_port_main, create_network_port_run, hmap,
    portLoop_no_network p.vm_name p.security_groups _ 0 conn [] hv hne2]

/-- Witness for the C8 amended theorem on `exCloud`. -/
theorem C8_unmapped_without_fallback_witness :
    create_network_port_main exPortParamsNoFallback [exNic] exCloud
      = (.failJson ("Failed to create  ports: " ++ pyErrStr .nameError), exCloud) :=
  C8_unmapped_without_fallback exPortParamsNoFallback [exNic] exCloud rfl rfl (by decide)

/-- C9: with `mapped=false` and a fallback network given, every port a
successful run creates sits on the network the fallback name resolves to and
carries the deterministic `-VLAN-{fallback}` port name, regardless of the
NICs' original vlan values. -/
theorem C9_fallback_network_all_ports (p : PortModuleParams) (vm_nics : List Nic)
    (conn : CloudState) (fb : String) (created : List Port)
    (hm : p.used_mapped_networks = false) (hn : p.network_name = some fb)
    (hrun : (create_network_port_run p vm_nics conn).2 = .ok created) :
    ∀ q ∈ created,
      (∃ nw, conn.get_network (some fb) = some nw ∧ q.network_id = nw.id)
      ∧ ∃ j, q.name = portName p.vm_name j (some fb) := by
  intro q hq
  have hmap : applyMappedPolicy p.used_mapped_networks p.network_name vm_nics
      = vm_nics.map (fun n => { n with vlan := some fb }) := by
    simp [applyMappedPolicy, hm, hn]
  rw [create_network_port_run, hmap] at hrun
  have hv : ∀ n ∈ vm_nics.map (fun n => { n with vlan := some fb }), n.vlan = some fb := by
    intro n hn2
    rcases List.mem_map.mp hn2 with ⟨x, _, rfl⟩
    rfl
  cases hnw : conn.get_network (some fb) with
  | some nw =>
      have hres := portLoop_fallback_aux p.vm_name p.security_groups fb nw _ 0 none conn []
        hv hnw created hrun q hq
      rcases hres with h | ⟨h1, h2⟩
      · exact absurd h (List.not_mem_nil q)
      · exact ⟨⟨nw, rfl, h1⟩, h2⟩
  | none =>
      cases vm_nics with
      | nil =>
          simp [portLoop] at hrun
          subst hrun
          exact absurd hq (List.not_mem_nil q)
      | cons a rest =>
          have hv2 : ∀ n ∈ (a :: rest).map (fun n => { n with vlan := some fb }),
              conn.get_network n.vlan = none := by
            intro n hn2
            rw [hv n hn2]
            exact hnw
          rw [portLoop_no_network p.vm_name p.security_groups _ 0 conn [] hv2 (by simp)]
            at hrun
          simp at hrun

/-- Witness for C9: the fallback run on `exCloud` creates exactly `wPort`,
which sits on the `private` network and carries the fallback port name. -/
theorem C9_fallback_network_all_ports_witness :
    (∃ nw, exCloud.get_network (some "private") = some nw ∧ wPort.network_id = nw.id)
    ∧ ∃ j, wPort.name = portName exPortParamsFallback.vm_name j (some "private") :=
  C9_fallback_network_all_ports exPortParamsFallback [exNic] exCloud "private" [wPort]
    rfl rfl rfl wPort (List.mem_singleton.mpr rfl)

/-- C10: the network lookup result is used unchecked — in a batch whose first
NIC resolves to `nw` and whose second NIC resolves to nothing, the second port
is silently created with the `network_id` of the most recent successful lookup
(`nw.id`), with no error; and when the very first NIC's lookup fails, the
`network_id` local is unbound and the whole module fails via the generic
handler. -/
theorem C10_unchecked_network_lookup (conn : CloudState) (vm : String) (sg : List String)
    (good bad : Nic) (nw : Network)
    (hg : conn.get_network good.vlan = some nw)
    (hb : conn.get_network bad.vlan = none) :
    (portLoop vm sg [good, bad] 0 none conn []).2
        = .ok [⟨portName vm 0 good.vlan, nw.id, good.mac, sg, conn.nextPortId⟩,
               ⟨portName vm 1 bad.vlan, nw.id, bad.mac, sg, conn.nextPortId + 1⟩]
    ∧ create_network_port_main ⟨vm, true, sg, none⟩ [bad] conn
        = (.failJson ("Failed to create  ports: " ++ pyErrStr .nameError), conn) := by
  constructor
  · simp only [portLoop, hg, hb, get_network_create_port]
    simp [CloudState.create_port]
  · simp [create_network_port_main, create_network_port_run, applyMappedPolicy, portLoop, hb]

/-- Witness for C10 on `exCloud` with NICs `exNic` (resolves to `exNet1`) and
`exBadNic` (resolves to nothing). -/
theorem C10_unchecked_network_lookup_witness :
    (portLoop "cirros" ["default"] [exNic, exBadNic] 0 none exCloud []).2
        = .ok [⟨portName "cirros" 0 exNic.vlan, exNet1.id, exNic.mac, ["default"],
                exCloud.nextPortId⟩,
               ⟨portName "cirros" 1 exBadNic.vlan, exNet1.id, exBadNic.mac, ["default"],
                exCloud.nextPortId + 1⟩]
    ∧ create_network_port_main ⟨"cirros", true, ["default"], none⟩ [exBadNic] exCloud
        = (.failJson ("Failed to create  ports: " ++ pyErrStr .nameError), exCloud) :=
  C10_unchecked_network_lookup exCloud "cirros" ["default"] exNic exBadNic exNet1 rfl rfl

end VMK
